import Mathlib

/-!
Shallow embedding of `src/reports/generate_report.py` (IoT-Traffic-Analysis).

The script is a linear batch job: load a CSV into a pandas DataFrame,
render five chart artifacts to disk (`generate_charts`), then assemble a
PDF from six fixed narrative sections and the artifacts that exist on
disk (`create_pdf`), driven by the `__main__` block.

The embedding models:
  * a pandas DataFrame as a column-oriented table of cells;
  * `pd.to_datetime(s, format=HH:MM:SS, errors=coerce).dt.hour` as
    `parseHour`;
  * `Series.value_counts()` as `valueCounts` (distinct values with their
    counts, sorted by descending count; sort is stable);
  * `generate_charts` step by step, recording which artifact files get
    written, which warnings are printed, whether an exception escapes the
    function (only the fifth, histogram, step is inside a `try`), the data
    behind the broker chart / retain pie / hour histogram, and the final
    state of the DataFrame object (the function mutates its argument via
    the `df[hour] = ...` assignment);
  * `create_pdf` as a pure function of the filesystem (which artifact
    files exist), of whether embedding each image succeeds, and of whether
    the final `pdf.output` write succeeds; narrative bodies are fixed
    string constants in the source and are tracked here by their
    `TEXT_SECTIONS` key, titles by their literal text;
  * the `__main__` block as `mainRun`.
-/

namespace IoTReport

/-- A cell of the table: the CSV columns are strings (`broker`,
`payload_type`, `timestamp`), integers (`qos`) and booleans (`retain`);
the derived `hour` column holds an hour or NaN (`Option Nat`). -/
inductive Cell where
  | str (s : String)
  | int (i : Int)
  | bool (b : Bool)
  | hourVal (n : Option Nat)
deriving DecidableEq, Repr

/-- A pandas DataFrame, column-oriented: a list of named columns, each a
list of cells (one per row). -/
structure DataFrame where
  cols : List (String × List Cell)
deriving DecidableEq, Repr

/-- `df[name]`: the first column with this name, or `none` (a `KeyError`
in Python) when there is no such column. -/
def DataFrame.getCol (df : DataFrame) (name : String) : Option (List Cell) :=
  (df.cols.find? (fun p => p.1 == name)).map Prod.snd

/-- The column names of the frame, in order. -/
def DataFrame.columns (df : DataFrame) : List String :=
  df.cols.map Prod.fst

/-- `df[name] = vals`: replace the column if it exists, otherwise append
it at the end (pandas assignment semantics). -/
def DataFrame.setCol (df : DataFrame) (name : String) (vals : List Cell) : DataFrame :=
  if df.cols.any (fun p => p.1 == name) then
    ⟨df.cols.map (fun p => if p.1 == name then (p.1, vals) else p)⟩
  else
    ⟨df.cols ++ [(name, vals)]⟩

/-- Split a character list at every `:` (the separator of the fixed
`%H:%M:%S` format); same cut points as `String.splitOn ":"`. -/
def splitColon : List Char → List (List Char)
  | [] => [[]]
  | c :: cs =>
    if c = ':' then [] :: splitColon cs
    else
      match splitColon cs with
      | [] => [[c]]
      | h :: t => (c :: h) :: t

/-- One numeric field of a `%H:%M:%S` timestamp: one or two digit
characters (`strptime` number fields match at most two digits here),
read as a decimal number. -/
def parseField (cs : List Char) : Option Nat :=
  if (1 ≤ cs.length ∧ cs.length ≤ 2) ∧ cs.all Char.isDigit then
    some (cs.foldl (fun n c => n * 10 + (c.toNat - 48)) 0)
  else none

/-- `pd.to_datetime(s, format=%H:%M:%S, errors=coerce).dt.hour` for one
string: `some h` when the whole string matches the fixed format with
in-range fields, `none` (NaT, hence NaN hour) otherwise. -/
def parseHour (s : String) : Option Nat :=
  match splitColon s.data with
  | [h, m, sec] =>
    match parseField h, parseField m, parseField sec with
    | some hv, some mv, some sv =>
      if hv ≤ 23 ∧ mv ≤ 59 ∧ sv ≤ 59 then some hv else none
    | _, _, _ => none
  | _ => none

/-- The hour value the histogram step derives from one cell of the
timestamp column (`none` when the timestamp fails to parse; a
non-string cell also coerces to NaT). -/
def hourOf (c : Cell) : Option Nat :=
  match c with
  | Cell.str s => parseHour s
  | _ => none

/-- Number of occurrences of value `v` in a column. -/
def countOcc (xs : List Cell) (v : Cell) : Nat :=
  xs.count v

/-- Distinct values of a column, in first-occurrence order, skipping the
values already in `seen`. -/
def dedupAux (seen : List Cell) : List Cell → List Cell
  | [] => []
  | x :: xs => if x ∈ seen then dedupAux seen xs else x :: dedupAux (x :: seen) xs

/-- The distinct values of a column, in order of first occurrence. -/
def dedupFirst (xs : List Cell) : List Cell :=
  dedupAux [] xs

/-- Order used by `value_counts()`: descending count. -/
def countGE (a b : Cell × Nat) : Prop := b.2 ≤ a.2

instance : DecidableRel countGE := fun a b => Nat.decLe b.2 a.2

instance : IsTotal (Cell × Nat) countGE :=
  ⟨fun a b => Or.elim (Nat.le_total b.2 a.2) Or.inl Or.inr⟩

instance : IsTrans (Cell × Nat) countGE := ⟨fun _ _ _ h1 h2 => Nat.le_trans h2 h1⟩

/-- `Series.value_counts()`: each distinct value with its count, sorted
by descending count (stable sort, first-occurrence order on ties). -/
def valueCounts (xs : List Cell) : List (Cell × Nat) :=
  List.insertionSort countGE ((dedupFirst xs).map (fun v => (v, countOcc xs v)))

/-- Outcome of the fifth (histogram) chart step of `generate_charts`:
files written, warnings printed, the hour values the histogram is built
from (`none` when the chart is skipped), and the DataFrame object as the
step leaves it (the step adds an `hour` column to the frame in place). -/
structure Chart5Result where
  files : List String
  warnings : List String
  histHours : Option (List Nat)
  df : DataFrame
deriving DecidableEq, Repr

/-- The fifth chart step (the `try` block of `generate_charts`):
`df[hour] = pd.to_datetime(df[timestamp], format=%H:%M:%S,
errors=coerce).dt.hour`; `df_time = df.dropna(subset=[hour])`; if
`df_time` is nonempty, save `fig5_time.png`, else print a warning.  A
missing `timestamp` column raises `KeyError`, which the enclosing
`except` catches and turns into a warning. -/
def chart5 (df : DataFrame) : Chart5Result :=
  match df.getCol "timestamp" with
  | none =>
    ⟨[], ["Warning: Could not generate time chart. KeyError: timestamp"], none, df⟩
  | some ts =>
    let hours := ts.map hourOf
    let df2 := df.setCol "hour" (hours.map Cell.hourVal)
    let valid := hours.filterMap id
    if valid.isEmpty then
      ⟨[], ["Warning: Could not extract hours from timestamp. Skipping Figure 5."],
        none, df2⟩
    else
      ⟨["fig5_time.png"], [], some valid, df2⟩

/-- Outcome of `generate_charts`: artifact files written (in order),
warnings printed, the exception escaping the function if any (only the
fifth step is wrapped in `try`/`except`; an exception in steps 1-4
propagates to the caller), the data behind the broker bar chart, the
retain pie slices (label, count), the histogram hours, and the DataFrame
object as the function leaves it. -/
structure ChartsResult where
  files : List String
  warnings : List String
  error : Option String
  brokerCounts : Option (List (Cell × Nat))
  retainSlices : Option (List (String × Nat))
  histHours : Option (List Nat)
  df : DataFrame
deriving DecidableEq, Repr

/-- `generate_charts(df)`.  Step 1 draws a constant code snippet
(`fig1_code.png`, no data access).  Step 2 needs `df[broker]`
(`value_counts` gives the bar order) and saves `fig2_broker.png`.  Step 3
needs `broker` and `payload_type` and saves `fig3_payload.png`.  Step 4
draws a `qos` countplot, then `df[retain].value_counts()` feeds a pie
with the two positional labels `Not Retained`, `Retained` — matplotlib
raises when the number of slices is not 2 — and saves `fig4_qos.png`.
Step 5 is `chart5` inside `try`/`except`.  A missing column in steps 2-4
raises, aborting the rest of the function. -/
def generate_charts (df : DataFrame) : ChartsResult :=
  let f1 := ["fig1_code.png"]
  match df.getCol "broker" with
  | none => ⟨f1, [], some "KeyError: broker", none, none, none, df⟩
  | some bs =>
    let order := valueCounts bs
    let f2 := f1 ++ ["fig2_broker.png"]
    match df.getCol "payload_type" with
    | none => ⟨f2, [], some "ValueError: payload_type", some order, none, none, df⟩
    | some _ =>
      let f3 := f2 ++ ["fig3_payload.png"]
      match df.getCol "qos" with
      | none => ⟨f3, [], some "ValueError: qos", some order, none, none, df⟩
      | some _ =>
        match df.getCol "retain" with
        | none => ⟨f3, [], some "KeyError: retain", some order, none, none, df⟩
        | some rs =>
          match valueCounts rs with
          | [a, b] =>
            let slices := [("Not Retained", a.2), ("Retained", b.2)]
            let f4 := f3 ++ ["fig4_qos.png"]
            let c5 := chart5 df
            ⟨f4 ++ c5.files, c5.warnings, none, some order, some slices,
              c5.histHours, c5.df⟩
          | _ =>
            ⟨f3, [], some "ValueError: pie labels must be of length x",
              some order, none, none, df⟩

/-- One element of the assembled document, in order: a page break
(`add_page`; the FPDF header with the fixed report title and author is
drawn on each page), a chapter title (its literal text), a chapter body
(tracked by its `TEXT_SECTIONS` key; every body is a fixed string
constant in the source), or a successfully embedded image with its
width (`self.image(path, w=170)`). -/
inductive DocItem where
  | page
  | title (s : String)
  | body (key : String)
  | image (path : String) (w : Nat)
deriving DecidableEq, Repr

/-- `ReportPDF.add_image_safe(image_path)`: if the file exists, try to
embed it at width 170 (an embedding failure prints an error and is
swallowed); if it does not exist, print a note.  Returns the document
items appended and the console messages printed; it never raises. -/
def add_image_safe (fsExists : String → Bool) (embedOk : String → Bool)
    (p : String) : List DocItem × List String :=
  if fsExists p then
    if embedOk p then
      ([DocItem.image p 170], [])
    else
      ([], ["Error adding image " ++ p])
  else
    ([], ["Image not found: " ++ p])

/-- The five artifact filenames, in the order `create_pdf` embeds them. -/
def figFiles : List String :=
  ["fig1_code.png", "fig2_broker.png", "fig3_payload.png", "fig4_qos.png",
    "fig5_time.png"]

/-- Outcome of `create_pdf`: the assembled document items, the console
messages printed, and whether the output PDF file was written. -/
structure PdfResult where
  items : List DocItem
  logs : List String
  written : Bool
deriving DecidableEq, Repr

/-- `create_pdf()`: one hardcoded sequence — page, sections 1 and 2,
image 1, section 3, image 2, page, section 4, images 3 and 4, section 5,
image 5, section 6 — then `pdf.output(OUTPUT_PDF)` inside `try`: on
failure the error is printed and no file is produced.  `fsExists` is
whether each artifact file exists on disk, `embedOk` whether embedding
it succeeds, `writeOk` whether the final write succeeds. -/
def create_pdf (fsExists : String → Bool) (embedOk : String → Bool)
    (writeOk : Bool) : PdfResult :=
  let i1 := add_image_safe fsExists embedOk "fig1_code.png"
  let i2 := add_image_safe fsExists embedOk "fig2_broker.png"
  let i3 := add_image_safe fsExists embedOk "fig3_payload.png"
  let i4 := add_image_safe fsExists embedOk "fig4_qos.png"
  let i5 := add_image_safe fsExists embedOk "fig5_time.png"
  let items :=
    [DocItem.page,
      DocItem.title "1. Executive Summary", DocItem.body "sec1_body",
      DocItem.title "2. Data Acquisition Architecture", DocItem.body "sec2_body"]
    ++ i1.1
    ++ [DocItem.title "3. Infrastructure Performance Analysis", DocItem.body "sec3_body"]
    ++ i2.1
    ++ [DocItem.page,
        DocItem.title "4. Payload & Protocol Insights", DocItem.body "sec4_body"]
    ++ i3.1 ++ i4.1
    ++ [DocItem.title "5. Temporal Traffic Behavior", DocItem.body "sec5_body"]
    ++ i5.1
    ++ [DocItem.title "6. Conclusion", DocItem.body "sec6_body"]
  let logs := i1.2 ++ i2.2 ++ i3.2 ++ i4.2 ++ i5.2
  if writeOk then
    ⟨items, logs ++ ["SUCCESS! Report generated: Professional_Report.pdf"], true⟩
  else
    ⟨items, logs ++ ["Error saving PDF"], false⟩

/-- Outcome of the whole run (`__main__` block): the chart artifact
files created, the PDF assembly result when `create_pdf` was reached
(`none` when it was not), and the fatal error printed, if any. -/
structure RunResult where
  chartFiles : List String
  doc : Option PdfResult
  fatalError : Option String
deriving Repr

/-- The `__main__` block: if the CSV file does not exist, print an error
and do nothing else; otherwise load it (`loadResult`), run
`generate_charts`, and — unless an exception escaped the load or the
chart stage, which the top-level `except` turns into one error report —
run `create_pdf`, for which an artifact file exists on disk exactly when
`generate_charts` wrote it. -/
def mainRun (csvExists : Bool) (loadResult : Except String DataFrame)
    (embedOk : String → Bool) (writeOk : Bool) : RunResult :=
  if csvExists then
    match loadResult with
    | Except.error e => ⟨[], none, some ("Error processing data: " ++ e)⟩
    | Except.ok df =>
      let ch := generate_charts df
      match ch.error with
      | some e => ⟨ch.files, none, some ("Error processing data: " ++ e)⟩
      | none =>
        ⟨ch.files, some (create_pdf (fun p => ch.files.contains p) embedOk writeOk),
          none⟩
  else
    ⟨[], none, some "Error: Could not find mqtt_captured_data.csv"⟩

/-- The three-row example table from the specification:
rows `(A, JSON, 0, false, 10:00:00)`, `(A, Numeric, 0, true, 10:05:00)`,
`(B, JSON, 0, false, bad)`. -/
def exampleDf : DataFrame :=
  ⟨[("broker", [Cell.str "A", Cell.str "A", Cell.str "B"]),
    ("payload_type", [Cell.str "JSON", Cell.str "Numeric", Cell.str "JSON"]),
    ("qos", [Cell.int 0, Cell.int 0, Cell.int 0]),
    ("retain", [Cell.bool false, Cell.bool true, Cell.bool false]),
    ("timestamp", [Cell.str "10:00:00", Cell.str "10:05:00", Cell.str "bad"])]⟩

/-- A table with the `broker` column missing (the other four expected
columns present), to exercise a failing chart step. -/
def dfNoBroker : DataFrame :=
  ⟨[("payload_type", [Cell.str "JSON"]),
    ("qos", [Cell.int 0]),
    ("retain", [Cell.bool false]),
    ("timestamp", [Cell.str "10:00:00"])]⟩

/-- A one-row table whose single record is retained: `retain` has only
the value `true`, so `value_counts` yields one entry. -/
def dfAllRetained : DataFrame :=
  ⟨[("broker", [Cell.str "A"]),
    ("payload_type", [Cell.str "JSON"]),
    ("qos", [Cell.int 0]),
    ("retain", [Cell.bool true]),
    ("timestamp", [Cell.str "10:00:00"])]⟩

/-- A table exercising the fifth chart alone: a `timestamp` column with
one well-formed and one malformed value. -/
def dfTimes : DataFrame :=
  ⟨[("timestamp", [Cell.str "23:00:00", Cell.str "not-a-time"])]⟩

/-- A table with the `timestamp` column missing and the other four
expected columns present (both retain values occur). -/
def dfNoTimestamp : DataFrame :=
  ⟨[("broker", [Cell.str "A", Cell.str "B"]),
    ("payload_type", [Cell.str "JSON", Cell.str "JSON"]),
    ("qos", [Cell.int 0, Cell.int 0]),
    ("retain", [Cell.bool true, Cell.bool false])]⟩

/-- A well-formed table none of whose timestamp values parses under the
fixed `%H:%M:%S` format. -/
def dfZeroParse : DataFrame :=
  ⟨[("broker", [Cell.str "A", Cell.str "B"]),
    ("payload_type", [Cell.str "JSON", Cell.str "JSON"]),
    ("qos", [Cell.int 0, Cell.int 0]),
    ("retain", [Cell.bool true, Cell.bool false]),
    ("timestamp", [Cell.str "bad", Cell.str "nope"])]⟩

/-- A one-row table whose single record is retained and whose timestamp
does not parse: zero records parse, and `value_counts` of `retain` has
a single entry. -/
def dfRetainedZeroParse : DataFrame :=
  ⟨[("broker", [Cell.str "A"]),
    ("payload_type", [Cell.str "JSON"]),
    ("qos", [Cell.int 0]),
    ("retain", [Cell.bool true]),
    ("timestamp", [Cell.str "bad"])]⟩

/-- A three-row table in which retained records outnumber not-retained
records and both retain values occur. -/
def dfMostlyRetained : DataFrame :=
  ⟨[("broker", [Cell.str "A", Cell.str "A", Cell.str "B"]),
    ("payload_type", [Cell.str "JSON", Cell.str "JSON", Cell.str "JSON"]),
    ("qos", [Cell.int 0, Cell.int 0, Cell.int 0]),
    ("retain", [Cell.bool true, Cell.bool true, Cell.bool false]),
    ("timestamp", [Cell.str "10:00:00", Cell.str "11:00:00", Cell.str "12:00:00"])]⟩

/-- Whether a document item is an embedded image. -/
def isImage : DocItem → Bool
  | DocItem.image _ _ => true
  | _ => false

/-- The non-image part of the document: two page breaks and the six
fixed narrative sections, in their hardcoded order. -/
def sectionSkeleton : List DocItem :=
  [DocItem.page,
   DocItem.title "1. Executive Summary", DocItem.body "sec1_body",
   DocItem.title "2. Data Acquisition Architecture", DocItem.body "sec2_body",
   DocItem.title "3. Infrastructure Performance Analysis", DocItem.body "sec3_body",
   DocItem.page,
   DocItem.title "4. Payload & Protocol Insights", DocItem.body "sec4_body",
   DocItem.title "5. Temporal Traffic Behavior", DocItem.body "sec5_body",
   DocItem.title "6. Conclusion", DocItem.body "sec6_body"]

/-- The image items contributed for one artifact, as a function of
whether it is present and embeddable. -/
def imgIf (b : Bool) (f : String) : List DocItem :=
  if b then [DocItem.image f 170] else []

/-! ### Lemmas about the DataFrame operations -/

/-- The in-place update branch of `setCol` keeps every column name. -/
theorem find?_map_update (name name' : String) (vals : List Cell)
    (h : ¬ name' = name) :
    ∀ (l : List (String × List Cell)),
      (l.map (fun p => if p.1 == name then (p.1, vals) else p)).find?
          (fun p => p.1 == name') =
        l.find? (fun p => p.1 == name')
  | [] => rfl
  | p :: l => by
    rw [List.map_cons]
    by_cases hq : p.1 = name
    · have hm : (if (p.1 == name) = true then ((p.1 : String), vals) else p) = (p.1, vals) :=
        if_pos (beq_iff_eq.mpr hq)
      have hpF : (p.1 == name') = false := by
        simp only [beq_eq_false_iff_ne, ne_eq]
        exact fun hcon => h ((hq ▸ hcon).symm)
      rw [hm]
      simp only [List.find?_cons, hpF]
      exact find?_map_update name name' vals h l
    · have hm : (if (p.1 == name) = true then ((p.1 : String), vals) else p) = p :=
        if_neg (fun hcon => hq (beq_iff_eq.mp hcon))
      rw [hm]
      simp only [List.find?_cons]
      by_cases hp : p.1 = name'
      · simp only [beq_iff_eq.mpr hp]
      · simp only [beq_eq_false_iff_ne.mpr hp]
        exact find?_map_update name name' vals h l

/-- Writing one column leaves every other column unchanged (both in the
replace branch and in the append branch of `setCol`). -/
theorem getCol_setCol_ne (df : DataFrame) (name name' : String)
    (vals : List Cell) (h : ¬ name' = name) :
    (df.setCol name vals).getCol name' = df.getCol name' := by
  unfold DataFrame.setCol DataFrame.getCol
  by_cases hc : df.cols.any (fun p => p.1 == name)
  · rw [if_pos hc]
    exact congrArg (Option.map Prod.snd) (find?_map_update name name' vals h df.cols)
  · rw [if_neg hc]
    show Option.map Prod.snd ((df.cols ++ [(name, vals)]).find? (fun p => p.1 == name')) = _
    rw [List.find?_append]
    have hno : List.find? (fun p => p.1 == name') [(name, vals)] = none := by
      rw [List.find?_cons_of_neg]
      · rfl
      · simp only [beq_iff_eq]
        exact fun hcon => h hcon.symm
    rw [hno, Option.or_none]

/-! ### Lemmas about value counts -/

/-- Membership in `dedupAux`: an element occurs in the result iff it is
in the input and not already seen. -/
theorem mem_dedupAux (x : Cell) :
    ∀ (l seen : List Cell), x ∈ dedupAux seen l ↔ (x ∈ l ∧ ¬ x ∈ seen)
  | [], seen => by simp [dedupAux]
  | y :: l, seen => by
    by_cases hy : y ∈ seen
    · rw [dedupAux, if_pos hy, mem_dedupAux x l seen]
      constructor
      · rintro ⟨hx, hs⟩
        exact ⟨List.mem_cons_of_mem _ hx, hs⟩
      · rintro ⟨hx, hs⟩
        rcases List.mem_cons.mp hx with hxy | hxl
        · exact absurd (hxy ▸ hy) hs
        · exact ⟨hxl, hs⟩
    · rw [dedupAux, if_neg hy]
      simp only [List.mem_cons, mem_dedupAux x l (y :: seen), List.mem_cons]
      constructor
      · rintro (hxy | ⟨hxl, hs⟩)
        · exact ⟨Or.inl hxy, hxy ▸ hy⟩
        · exact ⟨Or.inr hxl, fun hm => hs (Or.inr hm)⟩
      · rintro ⟨hxy | hxl, hs⟩
        · exact Or.inl hxy
        · by_cases hxy : x = y
          · exact Or.inl hxy
          · exact Or.inr ⟨hxl, fun hm => (hm.elim hxy hs)⟩

/-- `dedupAux` yields a list without duplicates. -/
theorem nodup_dedupAux : ∀ (l seen : List Cell), (dedupAux seen l).Nodup
  | [], _ => List.nodup_nil
  | y :: l, seen => by
    by_cases hy : y ∈ seen
    · rw [dedupAux, if_pos hy]
      exact nodup_dedupAux l seen
    · rw [dedupAux, if_neg hy]
      refine List.nodup_cons.mpr ⟨fun hmem => ?_, nodup_dedupAux l (y :: seen)⟩
      exact ((mem_dedupAux y l (y :: seen)).mp hmem).2 (List.mem_cons_self _ _)

/-- `dedupFirst` has the same members as its input. -/
theorem mem_dedupFirst (x : Cell) (l : List Cell) :
    x ∈ dedupFirst l ↔ x ∈ l := by
  rw [dedupFirst, mem_dedupAux]
  simp

/-- `dedupFirst` yields a list without duplicates. -/
theorem nodup_dedupFirst (l : List Cell) : (dedupFirst l).Nodup :=
  nodup_dedupAux l []

/-- A duplicate-free list over a two-element universe containing both
elements is one of the two orderings. -/
theorem nodup_two_mem (d : List Cell) (T F : Cell) (hTF : ¬ T = F)
    (hd : d.Nodup) (hall : ∀ x ∈ d, x = T ∨ x = F) (hT : T ∈ d) (hF : F ∈ d) :
    d = [T, F] ∨ d = [F, T] := by
  match d with
  | [] => simp at hT
  | [a] =>
    rw [List.mem_singleton] at hT hF
    exact absurd (hT.trans hF.symm) hTF
  | a :: b :: rest =>
    have ha := hall a (by simp)
    have hb := hall b (by simp)
    have hrest : rest = [] := by
      cases hr : rest with
      | nil => rfl
      | cons c t =>
        have hc := hall c (by simp [hr])
        have hnd := hd
        rw [hr] at hnd
        simp only [List.nodup_cons, List.mem_cons] at hnd
        rcases ha with ha | ha <;> rcases hb with hb | hb <;>
          rcases hc with hc | hc <;> simp_all
    subst hrest
    simp only [List.nodup_cons, List.mem_singleton, List.not_mem_nil,
      or_false, List.nodup_nil, and_true] at hd
    rcases ha with ha | ha <;> rcases hb with hb | hb
    · exact absurd (ha.trans hb.symm) hd.1
    · exact Or.inl (by rw [ha, hb])
    · exact Or.inr (by rw [ha, hb])
    · exact absurd (ha.trans hb.symm) hd.1

/-- The distinct values of an all-boolean column containing both values
are `true, false` or `false, true` (first-occurrence order). -/
theorem dedupFirst_two_bool (l : List Cell)
    (hall : ∀ c ∈ l, c = Cell.bool true ∨ c = Cell.bool false)
    (hT : Cell.bool true ∈ l) (hF : Cell.bool false ∈ l) :
    dedupFirst l = [Cell.bool true, Cell.bool false] ∨
      dedupFirst l = [Cell.bool false, Cell.bool true] := by
  refine nodup_two_mem _ _ _ (by simp) (nodup_dedupFirst l) ?_ ?_ ?_
  · exact fun x hx => hall x ((mem_dedupFirst x l).mp hx)
  · exact (mem_dedupFirst _ l).mpr hT
  · exact (mem_dedupFirst _ l).mpr hF

/-- `value_counts` output is sorted by descending count. -/
theorem sorted_valueCounts (xs : List Cell) :
    List.Sorted countGE (valueCounts xs) :=
  List.sorted_insertionSort countGE _

/-- Every entry of `value_counts` is a value of the column together with
its exact number of occurrences. -/
theorem mem_valueCounts {xs : List Cell} {v : Cell} {n : Nat}
    (h : (v, n) ∈ valueCounts xs) : n = countOcc xs v ∧ v ∈ xs := by
  have h' := (List.mem_insertionSort countGE).mp h
  rcases List.mem_map.mp h' with ⟨w, hw, he⟩
  have h1 : w = v := congrArg Prod.fst he
  have h2 : countOcc xs w = n := congrArg Prod.snd he
  constructor
  · rw [← h2, h1]
  · rw [← h1]
    exact (mem_dedupFirst w xs).mp hw

/-- Every value of the column appears in `value_counts` with its count. -/
theorem valueCounts_complete {xs : List Cell} {v : Cell} (h : v ∈ xs) :
    (v, countOcc xs v) ∈ valueCounts xs :=
  (List.mem_insertionSort countGE).mpr
    (List.mem_map.mpr ⟨v, (mem_dedupFirst v xs).mpr h, rfl⟩)

/-- `value_counts` of an all-boolean column in which `true` strictly
outnumbers `false` (and `false` occurs): the `true` entry comes first. -/
theorem valueCounts_two_bool (rs : List Cell)
    (hall : ∀ c ∈ rs, c = Cell.bool true ∨ c = Cell.bool false)
    (hcf : 0 < countOcc rs (Cell.bool false))
    (hct : countOcc rs (Cell.bool false) < countOcc rs (Cell.bool true)) :
    valueCounts rs =
      [(Cell.bool true, countOcc rs (Cell.bool true)),
       (Cell.bool false, countOcc rs (Cell.bool false))] := by
  have hTmem : Cell.bool true ∈ rs :=
    List.count_pos_iff.mp (Nat.lt_trans hcf hct)
  have hFmem : Cell.bool false ∈ rs := List.count_pos_iff.mp hcf
  rcases dedupFirst_two_bool rs hall hTmem hFmem with hd | hd <;>
    rw [valueCounts, hd]
  · show List.insertionSort countGE
      [(Cell.bool true, countOcc rs (Cell.bool true)),
       (Cell.bool false, countOcc rs (Cell.bool false))] = _
    rw [List.insertionSort, List.insertionSort, List.insertionSort,
      List.orderedInsert_nil, List.orderedInsert]
    rw [if_pos (show countGE (Cell.bool true, countOcc rs (Cell.bool true))
      (Cell.bool false, countOcc rs (Cell.bool false)) from Nat.le_of_lt hct)]
  · show List.insertionSort countGE
      [(Cell.bool false, countOcc rs (Cell.bool false)),
       (Cell.bool true, countOcc rs (Cell.bool true))] = _
    rw [List.insertionSort, List.insertionSort, List.insertionSort,
      List.orderedInsert_nil, List.orderedInsert]
    rw [if_neg (show ¬ countGE (Cell.bool false, countOcc rs (Cell.bool false))
      (Cell.bool true, countOcc rs (Cell.bool true)) from Nat.not_le_of_lt hct),
      List.orderedInsert_nil]

/-! ### Lemmas about the document assembler -/

/-- The items appended by `add_image_safe` depend only on whether the
file exists and embeds successfully. -/
theorem add_image_safe_items (ex em : String → Bool) (p : String) :
    (add_image_safe ex em p).1 = imgIf (ex p && em p) p := by
  unfold add_image_safe imgIf
  cases hex : ex p <;> cases hem : em p <;> simp

/-- The assembled item sequence of `create_pdf`, written with one
`imgIf` per artifact. -/
theorem create_pdf_items (ex em : String → Bool) (wr : Bool) :
    (create_pdf ex em wr).items =
      [DocItem.page,
       DocItem.title "1. Executive Summary", DocItem.body "sec1_body",
       DocItem.title "2. Data Acquisition Architecture", DocItem.body "sec2_body"]
      ++ imgIf (ex "fig1_code.png" && em "fig1_code.png") "fig1_code.png"
      ++ [DocItem.title "3. Infrastructure Performance Analysis", DocItem.body "sec3_body"]
      ++ imgIf (ex "fig2_broker.png" && em "fig2_broker.png") "fig2_broker.png"
      ++ [DocItem.page,
          DocItem.title "4. Payload & Protocol Insights", DocItem.body "sec4_body"]
      ++ imgIf (ex "fig3_payload.png" && em "fig3_payload.png") "fig3_payload.png"
      ++ imgIf (ex "fig4_qos.png" && em "fig4_qos.png") "fig4_qos.png"
      ++ [DocItem.title "5. Temporal Traffic Behavior", DocItem.body "sec5_body"]
      ++ imgIf (ex "fig5_time.png" && em "fig5_time.png") "fig5_time.png"
      ++ [DocItem.title "6. Conclusion", DocItem.body "sec6_body"] := by
  unfold create_pdf
  cases wr <;> simp [add_image_safe_items]

/-- Filtering the image items out of an `imgIf` block leaves nothing. -/
theorem filter_not_image_imgIf (b : Bool) (f : String) :
    (imgIf b f).filter (fun i => ! isImage i) = [] := by
  cases b <;> simp [imgIf, isImage]

/-- Filtering an `imgIf` block for image items keeps it whole. -/
theorem filter_image_imgIf (b : Bool) (f : String) :
    (imgIf b f).filter isImage = imgIf b f := by
  cases b <;> simp [imgIf, isImage]

/-- The non-image items of any assembled document are exactly the fixed
skeleton, whatever the filesystem, embedding and write outcomes. -/
theorem create_pdf_sections (ex em : String → Bool) (wr : Bool) :
    (create_pdf ex em wr).items.filter (fun i => ! isImage i) = sectionSkeleton := by
  rw [create_pdf_items]
  simp only [List.filter_append, filter_not_image_imgIf]
  simp [sectionSkeleton, isImage]

/-- The image items of any assembled document are exactly the present
and embeddable artifacts, in the fixed `figFiles` order, at width 170. -/
theorem create_pdf_images (ex em : String → Bool) (wr : Bool) :
    (create_pdf ex em wr).items.filter isImage =
      (figFiles.filter (fun f => ex f && em f)).map (fun f => DocItem.image f 170) := by
  rw [create_pdf_items]
  simp only [List.filter_append, filter_image_imgIf]
  cases h1 : ex "fig1_code.png" && em "fig1_code.png" <;>
  cases h2 : ex "fig2_broker.png" && em "fig2_broker.png" <;>
  cases h3 : ex "fig3_payload.png" && em "fig3_payload.png" <;>
  cases h4 : ex "fig4_qos.png" && em "fig4_qos.png" <;>
  cases h5 : ex "fig5_time.png" && em "fig5_time.png" <;>
  simp [figFiles, imgIf, isImage, h1, h2, h3, h4, h5]

/-! ### Branch equations for the chart renderer -/

/-- The fifth chart step when the `timestamp` column is missing: the
`KeyError` is caught and becomes a warning; the frame is untouched. -/
theorem chart5_no_timestamp (df : DataFrame)
    (ht : df.getCol "timestamp" = none) :
    chart5 df =
      ⟨[], ["Warning: Could not generate time chart. KeyError: timestamp"],
        none, df⟩ := by
  simp only [chart5, ht]

/-- The fifth chart step when no timestamp parses: no artifact, a
warning, and the (NaN-filled) `hour` column still added to the frame. -/
theorem chart5_zero_parse (df : DataFrame) (ts : List Cell)
    (ht : df.getCol "timestamp" = some ts)
    (hzero : (ts.map hourOf).filterMap id = []) :
    chart5 df =
      ⟨[], ["Warning: Could not extract hours from timestamp. Skipping Figure 5."],
        none, df.setCol "hour" ((ts.map hourOf).map Cell.hourVal)⟩ := by
  simp only [chart5, ht, hzero]
  rfl

/-- The fifth chart step when at least one timestamp parses: the
histogram artifact is written from exactly the parsed hours, and the
`hour` column is added to the frame. -/
theorem chart5_some_parse (df : DataFrame) (ts : List Cell) (x : Nat) (xs : List Nat)
    (ht : df.getCol "timestamp" = some ts)
    (hv : (ts.map hourOf).filterMap id = x :: xs) :
    chart5 df =
      ⟨["fig5_time.png"], [], some (x :: xs),
        df.setCol "hour" ((ts.map hourOf).map Cell.hourVal)⟩ := by
  simp only [chart5, ht, hv]
  rfl

/-- The renderer when the `broker` column is missing: the `KeyError`
escapes after the first artifact is written. -/
theorem generate_charts_no_broker (df : DataFrame)
    (hb : df.getCol "broker" = none) :
    generate_charts df =
      ⟨["fig1_code.png"], [], some "KeyError: broker", none, none, none, df⟩ := by
  simp only [generate_charts, hb]

/-- The renderer on the success path of the first four charts: all four
artifacts written, the retain pie labelled positionally over the two
`value_counts` entries, and the fifth step as `chart5` reports. -/
theorem generate_charts_success (df : DataFrame) (bs ps qs rs : List Cell)
    (a b : Cell × Nat)
    (hb : df.getCol "broker" = some bs)
    (hp : df.getCol "payload_type" = some ps)
    (hq : df.getCol "qos" = some qs)
    (hr : df.getCol "retain" = some rs)
    (hvc : valueCounts rs = [a, b]) :
    generate_charts df =
      ⟨["fig1_code.png", "fig2_broker.png", "fig3_payload.png", "fig4_qos.png"]
          ++ (chart5 df).files,
        (chart5 df).warnings, none, some (valueCounts bs),
        some [("Not Retained", a.2), ("Retained", b.2)],
        (chart5 df).histHours, (chart5 df).df⟩ := by
  simp only [generate_charts, hb, hp, hq, hr, hvc]
  rfl

/-! ### Claim theorems -/

/-- C4: If the input CSV path does not exist, the run aborts with a
single error report; no chart-rendering or document-assembly step
executes, and no chart-artifact or document output files are created. -/
theorem missing_csv_aborts_run (load : Except String DataFrame)
    (em : String → Bool) (wr : Bool) :
    mainRun false load em wr =
      ⟨[], none, some "Error: Could not find mqtt_captured_data.csv"⟩ :=
  rfl

/-- C9: If writing the final document fails, the run reports the error,
no document is produced, and assembly had already run to completion —
the item sequence equals the one of a successful write — so the failure
is terminal and raises nothing further. -/
theorem finalize_failure_handled (ex em : String → Bool) :
    (create_pdf ex em false).written = false ∧
    "Error saving PDF" ∈ (create_pdf ex em false).logs ∧
    (create_pdf ex em false).items = (create_pdf ex em true).items := by
  refine ⟨rfl, ?_, rfl⟩
  simp [create_pdf]

/-- C5: Document assembly is deterministic in the set of chart
artifacts present: the non-image items are always the fixed skeleton of
six narrative sections, the image items are exactly the present (and
embeddable) artifacts in the fixed order, and two assembler runs agree
on the whole item sequence whenever the embedded artifacts coincide. -/
theorem create_pdf_deterministic (ex em ex2 em2 : String → Bool) (wr wr2 : Bool) :
    (create_pdf ex em wr).items.filter (fun i => ! isImage i) = sectionSkeleton ∧
    (create_pdf ex em wr).items.filter isImage =
      (figFiles.filter (fun f => ex f && em f)).map (fun f => DocItem.image f 170) ∧
    ((∀ f ∈ figFiles, (ex f && em f) = (ex2 f && em2 f)) →
      (create_pdf ex em wr).items = (create_pdf ex2 em2 wr2).items) := by
  refine ⟨create_pdf_sections ex em wr, create_pdf_images ex em wr, fun h => ?_⟩
  rw [create_pdf_items, create_pdf_items]
  rw [h "fig1_code.png" (by simp [figFiles]), h "fig2_broker.png" (by simp [figFiles]),
    h "fig3_payload.png" (by simp [figFiles]), h "fig4_qos.png" (by simp [figFiles]),
    h "fig5_time.png" (by simp [figFiles])]

/-- Witness for C5 at concrete inputs: with the same artifacts present,
two runs (here: one whose final write succeeds and one whose write
fails) assemble the identical item sequence. -/
theorem create_pdf_deterministic_wit :
    (create_pdf (fun _ => true) (fun _ => true) true).items =
      (create_pdf (fun _ => true) (fun _ => true) false).items :=
  (create_pdf_deterministic (fun _ => true) (fun _ => true) (fun _ => true)
    (fun _ => true) true false).2.2 (fun _ _ => rfl)

/-- C8: `add_image_safe` embeds the image at the fixed width 170 when
the file exists and embedding succeeds; on an embedding failure it logs
an error and appends nothing; on a missing file it logs a note and
appends nothing; and in every case the remaining sections are still
assembled (the full section skeleton is produced whatever the per-image
outcomes). -/
theorem add_image_safe_cases (ex em : String → Bool) (p : String) :
    (ex p = true → em p = true →
      add_image_safe ex em p = ([DocItem.image p 170], [])) ∧
    (ex p = true → em p = false →
      add_image_safe ex em p = ([], ["Error adding image " ++ p])) ∧
    (ex p = false →
      add_image_safe ex em p = ([], ["Image not found: " ++ p])) ∧
    (∀ wr, (create_pdf ex em wr).items.filter (fun i => ! isImage i) =
      sectionSkeleton) := by
  refine ⟨fun h1 h2 => ?_, fun h1 h2 => ?_, fun h1 => ?_,
    fun wr => create_pdf_sections ex em wr⟩
  · simp [add_image_safe, h1, h2]
  · simp [add_image_safe, h1, h2]
  · simp [add_image_safe, h1]

/-- Witness for C8: the three outcomes of `add_image_safe` at the
concrete path `fig1_code.png`. -/
theorem add_image_safe_cases_wit :
    add_image_safe (fun _ => true) (fun _ => true) "fig1_code.png" =
      ([DocItem.image "fig1_code.png" 170], []) ∧
    add_image_safe (fun _ => true) (fun _ => false) "fig1_code.png" =
      ([], ["Error adding image fig1_code.png"]) ∧
    add_image_safe (fun _ => false) (fun _ => true) "fig1_code.png" =
      ([], ["Image not found: fig1_code.png"]) :=
  ⟨(add_image_safe_cases (fun _ => true) (fun _ => true) "fig1_code.png").1 rfl rfl,
   (add_image_safe_cases (fun _ => true) (fun _ => false) "fig1_code.png").2.1 rfl rfl,
   (add_image_safe_cases (fun _ => false) (fun _ => true) "fig1_code.png").2.2.1 rfl⟩

/-- C2: Hour extraction parses the timestamp with the fixed `%H:%M:%S`
format: `23:00:00` yields hour 23 and `not-a-time` fails to parse; the
histogram is built from exactly the records whose timestamp parses
(malformed records are excluded from this chart only), while every
original column of the table — hence every record — is left unchanged
for the other charts; on the concrete two-row frame the histogram keeps
only hour 23 and the timestamp column still holds both records. -/
theorem hour_extraction_histogram :
    parseHour "23:00:00" = some 23 ∧
    parseHour "not-a-time" = none ∧
    (∀ (df : DataFrame) (ts : List Cell), df.getCol "timestamp" = some ts →
      (chart5 df).histHours =
        (if (ts.map hourOf).filterMap id = [] then none
         else some ((ts.map hourOf).filterMap id)) ∧
      (∀ c, ¬ c = "hour" → (chart5 df).df.getCol c = df.getCol c)) ∧
    (chart5 dfTimes).histHours = some [23] ∧
    (chart5 dfTimes).df.getCol "timestamp" =
      some [Cell.str "23:00:00", Cell.str "not-a-time"] := by
  refine ⟨by decide, by decide, ?_, by decide, by decide⟩
  intro df ts hts
  rcases hv : (ts.map hourOf).filterMap id with _ | ⟨x, xs⟩
  · rw [chart5_zero_parse df ts hts hv]
    refine ⟨by simp [hv], fun c hc => getCol_setCol_ne df "hour" c _ hc⟩
  · rw [chart5_some_parse df ts x xs hts hv]
    refine ⟨by simp [hv], fun c hc => getCol_setCol_ne df "hour" c _ hc⟩

/-- Witness for C2 at the concrete frame `dfTimes`: the histogram data
is the single hour 23 and the timestamp column is unchanged. -/
theorem hour_extraction_histogram_wit :
    (chart5 dfTimes).histHours =
      (if (([Cell.str "23:00:00", Cell.str "not-a-time"].map hourOf).filterMap id) = []
       then none
       else some (([Cell.str "23:00:00", Cell.str "not-a-time"].map hourOf).filterMap id)) ∧
    (chart5 dfTimes).df.getCol "broker" = dfTimes.getCol "broker" :=
  ⟨(hour_extraction_histogram.2.2.1 dfTimes
      [Cell.str "23:00:00", Cell.str "not-a-time"] (by decide)).1,
   (hour_extraction_histogram.2.2.1 dfTimes
      [Cell.str "23:00:00", Cell.str "not-a-time"] (by decide)).2 "broker" (by decide)⟩

/-- C6: The broker-volume chart counts records per broker and orders
the categories by descending count: the chart data is exactly
`value_counts` of the broker column, which is sorted by descending
count, pairs every listed broker with its exact record count, lists
every broker that occurs, and on the three-row example table gives
`A = 2` before `B = 1`. -/
theorem broker_chart_counts_desc (df : DataFrame) (bs : List Cell)
    (hb : df.getCol "broker" = some bs) :
    (generate_charts df).brokerCounts = some (valueCounts bs) ∧
    List.Sorted countGE (valueCounts bs) ∧
    (∀ v n, (v, n) ∈ valueCounts bs → n = countOcc bs v ∧ v ∈ bs) ∧
    (∀ v, v ∈ bs → (v, countOcc bs v) ∈ valueCounts bs) ∧
    (generate_charts exampleDf).brokerCounts =
      some [(Cell.str "A", 2), (Cell.str "B", 1)] := by
  refine ⟨?_, sorted_valueCounts bs, fun v n h => mem_valueCounts h,
    fun v h => valueCounts_complete h, by decide⟩
  simp only [generate_charts, hb]
  repeat' split
  all_goals rfl

/-- Witness for C6 at the example table: the chart data is the
`value_counts` of the broker column. -/
theorem broker_chart_counts_desc_wit :
    (generate_charts exampleDf).brokerCounts =
      some (valueCounts [Cell.str "A", Cell.str "A", Cell.str "B"]) :=
  (broker_chart_counts_desc exampleDf _ (by decide)).1

/-- C7 (amended): on a table none of whose timestamps parses that
reaches the histogram step — the five expected columns are present and
`value_counts` of `retain` has exactly two entries, so the first four
charts succeed — the renderer finishes without a failure, writes the
first four artifacts but not the histogram artifact, and prints the
skip warning.  (When an earlier chart step fails, e.g. because only one
retain value occurs, the histogram step is never reached: see the
counterexample.) -/
theorem histogram_zero_parse_skips (df : DataFrame)
    (bs ps qs rs ts : List Cell) (a b : Cell × Nat)
    (hb : df.getCol "broker" = some bs)
    (hp : df.getCol "payload_type" = some ps)
    (hq : df.getCol "qos" = some qs)
    (hr : df.getCol "retain" = some rs)
    (ht : df.getCol "timestamp" = some ts)
    (hvc : valueCounts rs = [a, b])
    (hzero : (ts.map hourOf).filterMap id = []) :
    (generate_charts df).error = none ∧
    (generate_charts df).files =
      ["fig1_code.png", "fig2_broker.png", "fig3_payload.png", "fig4_qos.png"] ∧
    ¬ "fig5_time.png" ∈ (generate_charts df).files ∧
    "Warning: Could not extract hours from timestamp. Skipping Figure 5." ∈
      (generate_charts df).warnings := by
  rw [generate_charts_success df bs ps qs rs a b hb hp hq hr hvc,
    chart5_zero_parse df ts ht hzero]
  refine ⟨rfl, by simp, by simp, by simp⟩

/-- C7 counterexample: an all-retained table whose only timestamp is
malformed — zero records parse, squarely in the claim's scope — does
not get the claimed skip behavior: the pie call in the fourth chart
step raises first, no skip warning is ever logged, the error escapes
the renderer, and the run fails before document assembly. -/
theorem histogram_zero_parse_cex :
    ([Cell.str "bad"].map hourOf).filterMap id = [] ∧
    dfRetainedZeroParse.getCol "timestamp" = some [Cell.str "bad"] ∧
    (generate_charts dfRetainedZeroParse).error =
      some "ValueError: pie labels must be of length x" ∧
    (generate_charts dfRetainedZeroParse).warnings = [] ∧
    ¬ "Warning: Could not extract hours from timestamp. Skipping Figure 5." ∈
      (generate_charts dfRetainedZeroParse).warnings ∧
    (mainRun true (Except.ok dfRetainedZeroParse) (fun _ => true) true).doc = none ∧
    (mainRun true (Except.ok dfRetainedZeroParse) (fun _ => true) true).fatalError =
      some "Error processing data: ValueError: pie labels must be of length x" :=
  ⟨by decide, by decide, by decide, by decide, by decide, rfl, rfl⟩

/-- Witness for C7 (amended) at the concrete frame `dfZeroParse`
(timestamps `bad` and `nope`, both retain values present): no failure,
no histogram artifact, the warning is printed. -/
theorem histogram_zero_parse_skips_wit :
    (generate_charts dfZeroParse).error = none ∧
    (generate_charts dfZeroParse).files =
      ["fig1_code.png", "fig2_broker.png", "fig3_payload.png", "fig4_qos.png"] ∧
    ¬ "fig5_time.png" ∈ (generate_charts dfZeroParse).files ∧
    "Warning: Could not extract hours from timestamp. Skipping Figure 5." ∈
      (generate_charts dfZeroParse).warnings :=
  histogram_zero_parse_skips dfZeroParse
    [Cell.str "A", Cell.str "B"] [Cell.str "JSON", Cell.str "JSON"]
    [Cell.int 0, Cell.int 0] [Cell.bool true, Cell.bool false]
    [Cell.str "bad", Cell.str "nope"]
    (Cell.bool true, 1) (Cell.bool false, 1)
    (by decide) (by decide) (by decide) (by decide) (by decide) (by decide)
    (by decide)

/-- The fifth chart step never changes any column other than `hour`. -/
theorem chart5_preserves (df : DataFrame) (c : String) (hc : ¬ c = "hour") :
    (chart5 df).df.getCol c = df.getCol c := by
  rcases ht : df.getCol "timestamp" with _ | ts
  · rw [chart5_no_timestamp df ht]
  · rcases hv : (ts.map hourOf).filterMap id with _ | ⟨x, xs⟩
    · rw [chart5_zero_parse df ts ht hv]
      exact getCol_setCol_ne df "hour" c _ hc
    · rw [chart5_some_parse df ts x xs ht hv]
      exact getCol_setCol_ne df "hour" c _ hc

/-- C1 counterexample: on a table whose `broker` column is missing, the
exception raised while rendering the second chart is not caught and not
logged as a warning inside the renderer: it escapes, the third, fourth
and fifth charts are not attempted (only the first artifact exists),
and document assembly never runs — the run ends in the single top-level
error report. -/
theorem chart_failure_not_isolated_cex :
    (generate_charts dfNoBroker).error = some "KeyError: broker" ∧
    (generate_charts dfNoBroker).warnings = [] ∧
    (generate_charts dfNoBroker).files = ["fig1_code.png"] ∧
    (mainRun true (Except.ok dfNoBroker) (fun _ => true) true).doc = none ∧
    (mainRun true (Except.ok dfNoBroker) (fun _ => true) true).fatalError =
      some "Error processing data: KeyError: broker" :=
  ⟨by decide, by decide, by decide, rfl, rfl⟩

/-- C1 (amended): only the fifth (histogram) chart step is wrapped in
try/except.  An exception during it — e.g. a missing `timestamp`
column — is caught, logged as a warning, and does not prevent document
assembly; an exception during any of the first four chart steps — e.g.
a missing `broker` column — escapes the renderer, is caught once at top
level, and prevents both the remaining charts and document assembly. -/
theorem chart_failure_isolation_amended (df : DataFrame) (em : String → Bool)
    (bs ps qs rs : List Cell) (a b : Cell × Nat) :
    (df.getCol "broker" = none →
      (generate_charts df).error = some "KeyError: broker" ∧
      (generate_charts df).files = ["fig1_code.png"] ∧
      (mainRun true (Except.ok df) em true).doc = none) ∧
    (df.getCol "broker" = some bs → df.getCol "payload_type" = some ps →
     df.getCol "qos" = some qs → df.getCol "retain" = some rs →
     valueCounts rs = [a, b] → df.getCol "timestamp" = none →
      (generate_charts df).error = none ∧
      "Warning: Could not generate time chart. KeyError: timestamp" ∈
        (generate_charts df).warnings ∧
      (mainRun true (Except.ok df) em true).doc =
        some (create_pdf (fun p => (generate_charts df).files.contains p) em true)) := by
  constructor
  · intro hb
    have herr : (generate_charts df).error = some "KeyError: broker" := by
      rw [generate_charts_no_broker df hb]
    refine ⟨herr, by rw [generate_charts_no_broker df hb], ?_⟩
    simp [mainRun, herr]
  · intro hb hp hq hr hvc ht
    have hgc := generate_charts_success df bs ps qs rs a b hb hp hq hr hvc
    rw [chart5_no_timestamp df ht] at hgc
    have herr : (generate_charts df).error = none := by rw [hgc]
    refine ⟨herr, by rw [hgc]; simp, ?_⟩
    simp [mainRun, herr]

/-- Witness for C1 (amended): the broker-missing branch at
`dfNoBroker` and the timestamp-missing branch at `dfNoTimestamp`. -/
theorem chart_failure_isolation_amended_wit :
    (mainRun true (Except.ok dfNoBroker) (fun _ => true) true).doc = none ∧
    (generate_charts dfNoTimestamp).error = none ∧
    "Warning: Could not generate time chart. KeyError: timestamp" ∈
      (generate_charts dfNoTimestamp).warnings :=
  ⟨((chart_failure_isolation_amended dfNoBroker (fun _ => true) [] [] [] []
      (Cell.bool true, 1) (Cell.bool false, 1)).1 (by decide)).2.2,
   ((chart_failure_isolation_amended dfNoTimestamp (fun _ => true)
      [Cell.str "A", Cell.str "B"] [Cell.str "JSON", Cell.str "JSON"]
      [Cell.int 0, Cell.int 0] [Cell.bool true, Cell.bool false]
      (Cell.bool true, 1) (Cell.bool false, 1)).2 (by decide) (by decide)
      (by decide) (by decide) (by decide) (by decide)).1,
   ((chart_failure_isolation_amended dfNoTimestamp (fun _ => false)
      [Cell.str "A", Cell.str "B"] [Cell.str "JSON", Cell.str "JSON"]
      [Cell.int 0, Cell.int 0] [Cell.bool true, Cell.bool false]
      (Cell.bool true, 1) (Cell.bool false, 1)).2 (by decide) (by decide)
      (by decide) (by decide) (by decide) (by decide)).2.1⟩

/-- C3 counterexample: the renderer mutates the table passed to it — on
the example table the frame object ends the renderer stage with an
extra `hour` column, so its column set is not unchanged. -/
theorem renderer_mutates_table_cex :
    "hour" ∈ (generate_charts exampleDf).df.columns ∧
    ¬ "hour" ∈ exampleDf.columns ∧
    ¬ (generate_charts exampleDf).df.columns = exampleDf.columns :=
  ⟨by decide, by decide, by decide⟩

/-- C3 (amended): the renderer shares the caller's table and mutates it
in place, but only by adding (or overwriting) the derived `hour`
column: reading any other column before and after `generate_charts`
gives the same values, so all rows and all original columns other than
a pre-existing `hour` survive unchanged. -/
theorem renderer_preserves_original_columns (df : DataFrame) (c : String)
    (hc : ¬ c = "hour") :
    (generate_charts df).df.getCol c = df.getCol c := by
  simp only [generate_charts]
  repeat' split
  all_goals first
    | rfl
    | exact chart5_preserves df c hc

/-- Witness for C3 (amended): on the example table the broker column is
unchanged by the renderer. -/
theorem renderer_preserves_original_columns_wit :
    (generate_charts exampleDf).df.getCol "broker" = exampleDf.getCol "broker" :=
  renderer_preserves_original_columns exampleDf "broker" (by decide)

/-- C10 counterexample: on a table whose records are all retained —
so retained records outnumber not-retained ones — there is no slice
labelled `Retained` at all: `value_counts` has a single entry, the pie
call fails on the two positional labels, the fourth artifact is not
written and the error escapes the renderer. -/
theorem retain_pie_single_value_cex :
    countOcc [Cell.bool true] (Cell.bool false) <
      countOcc [Cell.bool true] (Cell.bool true) ∧
    dfAllRetained.getCol "retain" = some [Cell.bool true] ∧
    (generate_charts dfAllRetained).retainSlices = none ∧
    (generate_charts dfAllRetained).error =
      some "ValueError: pie labels must be of length x" ∧
    ¬ "fig4_qos.png" ∈ (generate_charts dfAllRetained).files := by
  decide

/-- C10 (amended): when both retain values occur and retained records
strictly outnumber not-retained ones, the pie labels are assigned by
count rank, not by value: the slice labelled `Not Retained` carries the
retained count and the slice labelled `Retained` carries the
not-retained count; when only one retain value occurs the pie call
fails instead (two labels for one slice) and the chart is aborted. -/
theorem retain_pie_labels_by_rank (df : DataFrame) (bs ps qs rs : List Cell)
    (hb : df.getCol "broker" = some bs)
    (hp : df.getCol "payload_type" = some ps)
    (hq : df.getCol "qos" = some qs)
    (hr : df.getCol "retain" = some rs)
    (hall : ∀ c ∈ rs, c = Cell.bool true ∨ c = Cell.bool false)
    (hcf : 0 < countOcc rs (Cell.bool false))
    (hct : countOcc rs (Cell.bool false) < countOcc rs (Cell.bool true)) :
    (generate_charts df).retainSlices =
      some [("Not Retained", countOcc rs (Cell.bool true)),
            ("Retained", countOcc rs (Cell.bool false))] := by
  have hvc := valueCounts_two_bool rs hall hcf hct
  rw [generate_charts_success df bs ps qs rs _ _ hb hp hq hr hvc]

/-- Witness for C10 (amended) at `dfMostlyRetained` (two retained
records, one not-retained): the `Retained` slice carries the
not-retained count 1. -/
theorem retain_pie_labels_by_rank_wit :
    (generate_charts dfMostlyRetained).retainSlices =
      some [("Not Retained", 2), ("Retained", 1)] :=
  retain_pie_labels_by_rank dfMostlyRetained
    [Cell.str "A", Cell.str "A", Cell.str "B"]
    [Cell.str "JSON", Cell.str "JSON", Cell.str "JSON"]
    [Cell.int 0, Cell.int 0, Cell.int 0]
    [Cell.bool true, Cell.bool true, Cell.bool false]
    (by decide) (by decide) (by decide) (by decide) (by decide) (by decide)
    (by decide)

end IoTReport
